import Mathlib

/-!
Shallow embedding of the data-loading and aggregation pipeline of
`twitter_dashboard.py` (the Data Loader & Aggregator of the dashboard),
together with proofs of the data-shape properties stated in the
specification.

The Python pipeline is: open three JSON files, build the world/US trend
sets and their intersection, collect one `EngagementRow` per tweet that
carries a `retweeted_status` key, group the rows by
(ScreenName, Text, Followers) summing Retweets and Favorites, derive
`Total_Engagement` and `Normalized_Engagement_Rate`, and count the `Lang`
values of all qualifying rows with `Counter(...).most_common()`.
-/

namespace TwitterDashboard

/-- JSON values as produced by `json.load`. Numbers are modelled as
integers: every field this program reads is an integral count. -/
inductive Json where
  | null : Json
  | bool : Bool → Json
  | num : Int → Json
  | str : String → Json
  | arr : List Json → Json
  | obj : List (String × Json) → Json

/-- Python exceptions that the pipeline can raise.  `FileNotFoundError` is
handled separately (it is the only exception the `try` block catches), so
this type covers only the exceptions that escape `load_data`. -/
inductive PyError where
  | indexError : PyError
  | keyError : String → PyError
  | typeError : PyError
  | valueError : String → PyError
deriving DecidableEq, Repr

/-- `d[k]` lookup on a JSON object: first binding of the key, none if the
value is not an object or lacks the key. -/
def Json.getKey : Json → String → Option Json
  | .obj fields, k => fields.lookup k
  | _, _ => none

/-- Python membership test `k in d` on a JSON object. -/
def Json.hasKey (j : Json) (k : String) : Bool :=
  (j.getKey k).isSome

/-- Subscripting `d[k]`: raises `KeyError` when the key is absent. -/
def getItem (j : Json) (k : String) : Except PyError Json :=
  match j.getKey k with
  | some v => .ok v
  | none => .error (.keyError k)

/-- Use a JSON value as an integer. -/
def asInt : Json → Except PyError Int
  | .num n => .ok n
  | _ => .error .typeError

/-- Use a JSON value as a string. -/
def asStr : Json → Except PyError String
  | .str s => .ok s
  | _ => .error .typeError

/-- Use a JSON value as a list (Python iteration over the top level). -/
def asList : Json → Except PyError (List Json)
  | .arr xs => .ok xs
  | _ => .error .typeError

/-- `set(trend[%name%] for trend in doc[0][%trends%])`: the name list of a
trend document.  `doc[0]` on an empty sequence raises `IndexError`; a first
element without the `trends` key raises `KeyError`. -/
def extractTrendNames (doc : Json) : Except PyError (List String) := do
  let top ← asList doc
  let first ← match top with
    | [] => Except.error PyError.indexError
    | x :: _ => Except.ok x
  let trendsVal ← getItem first "trends"
  let trendList ← asList trendsVal
  trendList.mapM (fun t => do asStr (← getItem t "name"))

/-- `world_trends.intersection(us_trends)` from `load_data`. -/
def commonTrends (world us : Finset String) : Finset String :=
  world ∩ us

/-- One element of `retweets_data`: the row built for a tweet that carries
a `retweeted_status` sub-record. -/
structure EngagementRow where
  Retweets : Int
  Favorites : Int
  Followers : Int
  ScreenName : String
  Text : String
  Lang : String
deriving DecidableEq, Repr

/-- The body of the `for tweet in tweets` loop: rows are appended only for
tweets with a `retweeted_status` key; missing inner fields raise. -/
def tweetToRow (tweet : Json) : Except PyError (Option EngagementRow) :=
  if tweet.hasKey "retweeted_status" then do
    let retweets ← asInt (← getItem tweet "retweet_count")
    let rs ← getItem tweet "retweeted_status"
    let favorites ← asInt (← getItem rs "favorite_count")
    let user ← getItem rs "user"
    let followers ← asInt (← getItem user "followers_count")
    let screenName ← asStr (← getItem user "screen_name")
    let text ← asStr (← getItem tweet "text")
    let lang ← asStr (← getItem tweet "lang")
    return some { Retweets := retweets, Favorites := favorites,
                  Followers := followers, ScreenName := screenName,
                  Text := text, Lang := lang }
  else
    return none

/-- The whole filtering loop producing `retweets_data`. -/
def extractRows : List Json → Except PyError (List EngagementRow)
  | [] => .ok []
  | t :: ts => do
    let r ← tweetToRow t
    let rest ← extractRows ts
    match r with
    | some row => .ok (row :: rest)
    | none => .ok rest

/-- The composite groupby key of `df.groupby([%ScreenName%, %Text%, %Followers%])`. -/
abbrev AggKey : Type := String × String × Int

def keyOf (r : EngagementRow) : AggKey :=
  (r.ScreenName, r.Text, r.Followers)

/-- Distinct elements of a list in first-occurrence order. -/
def firstSeen {α : Type} [DecidableEq α] : List α → List α
  | [] => []
  | x :: xs => x :: (firstSeen xs).filter (fun y => y ≠ x)

/-- One row of `df_agg`: the aggregate produced for one groupby key. -/
structure AggRow where
  ScreenName : String
  Text : String
  Followers : Int
  Total_Retweets : Int
  Total_Favorites : Int
  Total_Engagement : Int
  Normalized_Engagement_Rate : ℚ
deriving DecidableEq, Repr

/-- The aggregate row for key `k`: sum Retweets and Favorites over the
rows of the group, then `Total_Engagement = Total_Retweets +
Total_Favorites` and `Normalized_Engagement_Rate = Total_Engagement /
Followers * 100` exactly as the two column assignments compute them.
The source divides in IEEE floats, where a zero `Followers` yields
infinity; rational division by zero yields 0 in this embedding, and no
theorem below relies on the value of the rate at `Followers = 0` (the
missing guard is recorded separately). -/
def aggRowFor (rows : List EngagementRow) (k : AggKey) : AggRow :=
  let group := rows.filter (fun r => keyOf r = k)
  let tr := (group.map (·.Retweets)).sum
  let tf := (group.map (·.Favorites)).sum
  { ScreenName := k.1, Text := k.2.1, Followers := k.2.2,
    Total_Retweets := tr, Total_Favorites := tf,
    Total_Engagement := tr + tf,
    Normalized_Engagement_Rate := ((tr + tf : Int) : ℚ) / (k.2.2 : ℚ) * 100 }

/-- The rows of `df_agg`: one aggregate row per distinct groupby key.
pandas emits the groups in sorted-key order and `sort_values` then
reorders the rows by Followers descending with an unspecified tie order;
every property proved below is invariant under row permutation, so the
embedding fixes the first-occurrence key order. -/
def dfAggRows (rows : List EngagementRow) : List AggRow :=
  (firstSeen (rows.map keyOf)).map (aggRowFor rows)

/-- The groupby step.  `pd.DataFrame([])` has no columns, so grouping an
empty `retweets_data` raises `KeyError` on the first column name. -/
def dfAgg (rows : List EngagementRow) : Except PyError (List AggRow) :=
  if rows.isEmpty then .error (.keyError "ScreenName")
  else .ok (dfAggRows rows)

/-- Occurrence count of one value, as `Counter` counts it. -/
def occCount (xs : List String) (c : String) : Nat :=
  (xs.filter (fun x => x = c)).length

/-- `Counter(xs).items()`: distinct values in first-encounter order, each
with its occurrence count (Python dicts preserve insertion order). -/
def counterItems (xs : List String) : List (String × Nat) :=
  (firstSeen xs).map (fun l => (l, occCount xs l))

/-- Insert an entry after every entry with a count at least as large:
one step of the stable descending sort that `sorted(..., reverse=True)`
performs inside `most_common()`. -/
def insertDesc (p : String × Nat) : List (String × Nat) → List (String × Nat)
  | [] => [p]
  | q :: qs => if q.2 < p.2 then p :: q :: qs else q :: insertDesc p qs

/-- Stable sort by descending count (ties keep their existing order). -/
def sortDescByCount (l : List (String × Nat)) : List (String × Nat) :=
  l.foldl (fun acc p => insertDesc p acc) []

/-- `Counter(xs).most_common()`. -/
def mostCommon (xs : List String) : List (String × Nat) :=
  sortDescByCount (counterItems xs)

/-- `lang_counts`: language frequency over the Lang column of the full
(unaggregated) `df`. -/
def langCounts (rows : List EngagementRow) : List (String × Nat) :=
  mostCommon (rows.map (·.Lang))

/-- The three fixed input files; `none` models a file missing from the
filesystem (so `open` raises `FileNotFoundError`). -/
structure SourceFiles where
  wwTrendsFile : Option Json
  usTrendsFile : Option Json
  tweetsFile : Option Json

/-- The value `load_data` returns: the `except FileNotFoundError` branch
returns the four-element tuple `None, None, None, None`, the success path
returns the five data products. -/
inductive LoadReturn where
  | quadNone : LoadReturn
  | products : Finset String → Finset String → Finset String →
      List AggRow → List (String × Nat) → LoadReturn
deriving DecidableEq

/-- Number of components of the returned tuple. -/
def LoadReturn.arity : LoadReturn → Nat
  | .quadNone => 4
  | .products _ _ _ _ _ => 5

/-- Result of a call to `load_data`: the `st.error` notices emitted plus
either a returned value or an uncaught exception. -/
structure LoadOutcome where
  notices : List String
  result : Except PyError LoadReturn

/-- The user-facing message of the `except FileNotFoundError` branch. -/
def missingFilesNotice : String :=
  "Data files not found. Ensure WWTrends.json, USTrends.json, and WeLoveTheEarth.json are in a datasets folder."

/-- The body of `load_data` after the three files opened: trend
extraction, retweet filtering, groupby aggregation and language count, in
source order. -/
def loadPipeline (ww us tw : Json) : Except PyError LoadReturn := do
  let wwNames ← extractTrendNames ww
  let usNames ← extractTrendNames us
  let worldTrends := wwNames.toFinset
  let usTrends := usNames.toFinset
  let common := commonTrends worldTrends usTrends
  let tweets ← asList tw
  let rows ← extractRows tweets
  let agg ← dfAgg rows
  Except.ok (LoadReturn.products worldTrends usTrends common agg (langCounts rows))

/-- `load_data`: open the three files (any missing file lands in the
`except FileNotFoundError` branch, which emits the notice and returns four
`None`s), then run the pipeline. -/
def load_data (fs : SourceFiles) : LoadOutcome :=
  match fs.wwTrendsFile, fs.usTrendsFile, fs.tweetsFile with
  | some ww, some us, some tw =>
    { notices := [], result := loadPipeline ww us tw }
  | _, _, _ =>
    { notices := [missingFilesNotice],
      result := .ok .quadNone }

/-- What `main` renders after unpacking
`world_trends, us_trends, common_trends, df_agg, lang_counts = load_data()`:
unpacking the four-`None` tuple into five names raises `ValueError`
before the `if world_trends is None` guard can run; the success path
renders every panel. -/
def renderedCharts : LoadReturn → Except PyError (List String)
  | .quadNone => .error (.valueError "not enough values to unpack")
  | .products _ _ _ _ _ =>
      .ok ["venn", "dataframe", "scatter", "bar", "choropleth", "language_bar"]

/-- `main`: the load outcome together with the charts rendered (an
exception raised inside `load_data` propagates and nothing is rendered). -/
def dashboardMain (fs : SourceFiles) : LoadOutcome × Except PyError (List String) :=
  let out := load_data fs
  (out, match out.result with
    | .error e => .error e
    | .ok r => renderedCharts r)

/-- The DataUnavailable condition of the spec: the loader emitted the
user-facing notice and returned the four-`None` tuple in place of data
products. -/
def DataUnavailable (o : LoadOutcome) : Prop :=
  o.notices = [missingFilesNotice] ∧ o.result = .ok .quadNone

/-- The MalformedTrendDocument condition of the spec, as the exceptions
the two malformed-trend shapes raise. -/
def MalformedTrendDocument (e : PyError) : Prop :=
  e = .indexError ∨ e = .keyError "trends"

/-- The two malformed trend-document shapes named by the spec: empty
top-level sequence, or first element without the `trends` key. -/
def malformedTrendShape (doc : Json) : Prop :=
  doc = Json.arr [] ∨
    ∃ first rest, doc = Json.arr (first :: rest) ∧ first.getKey "trends" = none

/-- At least one of the three source files is missing. -/
def anyMissing (fs : SourceFiles) : Prop :=
  fs.wwTrendsFile = none ∨ fs.usTrendsFile = none ∨ fs.tweetsFile = none

/-- The descending-count ordering on frequency entries. -/
def countGE (p q : String × Nat) : Prop := q.2 ≤ p.2

/-- A qualifying record whose original author has zero followers. -/
def zeroFollowerRow : EngagementRow :=
  { Retweets := 5, Favorites := 10, Followers := 0,
    ScreenName := "A", Text := "T", Lang := "en" }

/-- The tweet-corpus entry that produces `zeroFollowerRow`. -/
def zeroTweetJson : Json :=
  Json.obj [("retweet_count", Json.num 5),
            ("retweeted_status",
              Json.obj [("favorite_count", Json.num 10),
                        ("user", Json.obj [("followers_count", Json.num 0),
                                           ("screen_name", Json.str "A")])]),
            ("text", Json.str "T"),
            ("lang", Json.str "en")]

/-- A well-formed trend document with an empty trend list. -/
def emptyTrendDoc : Json :=
  Json.arr [Json.obj [("trends", Json.arr [])]]

/-- A filesystem whose tweet corpus holds exactly one qualifying record,
authored by a zero-follower account. -/
def fsZeroFollowers : SourceFiles :=
  ⟨some emptyTrendDoc, some emptyTrendDoc, some (Json.arr [zeroTweetJson])⟩

/-! ### Helper lemmas -/

theorem ts_bind_error {ε α β : Type} (e : ε) (f : α → Except ε β) :
    (Except.error e : Except ε α) >>= f = Except.error e := rfl

theorem ts_bind_ok {ε α β : Type} (a : α) (f : α → Except ε β) :
    (Except.ok a : Except ε α) >>= f = f a := rfl

theorem mem_firstSeen {α : Type} [DecidableEq α] (l : List α) (a : α) :
    a ∈ firstSeen l ↔ a ∈ l := by
  induction l with
  | nil => simp [firstSeen]
  | cons x xs ih =>
    by_cases hax : a = x
    · subst hax
      simp [firstSeen]
    · simp [firstSeen, List.mem_filter, hax, ih]

theorem nodup_firstSeen {α : Type} [DecidableEq α] (l : List α) :
    (firstSeen l).Nodup := by
  induction l with
  | nil => simp [firstSeen]
  | cons x xs ih =>
    refine List.nodup_cons.mpr ⟨?_, ih.filter _⟩
    intro hmem
    have := (List.mem_filter.mp hmem).2
    simp at this

theorem ts_sum_map_one {α : Type} (l : List α) :
    (l.map (fun _ => (1 : ℕ))).sum = l.length := by
  induction l with
  | nil => rfl
  | cons x xs ih => simp [ih, Nat.add_comm]

/-- Splitting a mapped sum along a Boolean predicate. -/
theorem ts_sum_filter_split {α M : Type} [AddCommMonoid M] (p : α → Bool) (f : α → M) :
    ∀ l : List α,
      ((l.filter p).map f).sum + ((l.filter (fun a => !(p a))).map f).sum = (l.map f).sum
  | [] => by simp
  | a :: l => by
    cases h : p a <;>
      simp [List.filter_cons, h, ← ts_sum_filter_split p f l, add_assoc, add_left_comm]

/-- Summing group sums over a duplicate-free covering list of keys gives
the total sum: the double-counting-free core of the groupby aggregation. -/
theorem ts_sum_over_fibers {α κ M : Type} [DecidableEq κ] [AddCommMonoid M]
    (key : α → κ) (f : α → M) :
    ∀ (keys : List κ) (l : List α), keys.Nodup → (∀ a ∈ l, key a ∈ keys) →
      (keys.map (fun k => ((l.filter (fun a => key a = k)).map f).sum)).sum = (l.map f).sum
  | [], l, _, hcov => by
    cases l with
    | nil => simp
    | cons a l => exact absurd (hcov a (List.mem_cons_self a l)) (List.not_mem_nil _)
  | k :: ks, l, hnd, hcov => by
    have hk : k ∉ ks := (List.nodup_cons.mp hnd).1
    have hnd' : ks.Nodup := (List.nodup_cons.mp hnd).2
    have hfib : ∀ k' ∈ ks,
        l.filter (fun a => key a = k') =
          (l.filter (fun a => !(decide (key a = k)))).filter (fun a => key a = k') := by
      intro k' hk'
      rw [List.filter_filter]
      apply List.filter_congr
      intro a _
      have hk2 : ¬ k' = k := fun e => hk (e ▸ hk')
      by_cases h : key a = k'
      · simp [h, hk2]
      · simp [h]
    have hmap :
        (ks.map (fun k' => ((l.filter (fun a => key a = k')).map f).sum)) =
          ks.map (fun k' =>
            (((l.filter (fun a => !(decide (key a = k)))).filter
                (fun a => key a = k')).map f).sum) := by
      apply List.map_congr_left
      intro k' hk'
      rw [hfib k' hk']
    have hcov' : ∀ a ∈ l.filter (fun a => !(decide (key a = k))), key a ∈ ks := by
      intro a ha
      have hmem := (List.mem_filter.mp ha).1
      have hne := (List.mem_filter.mp ha).2
      rcases List.mem_cons.mp (hcov a hmem) with h | h
      · simp [h] at hne
      · exact h
    have ih := ts_sum_over_fibers key f ks
      (l.filter (fun a => !(decide (key a = k)))) hnd' hcov'
    calc ((k :: ks).map (fun k' => ((l.filter (fun a => key a = k')).map f).sum)).sum
        = ((l.filter (fun a => key a = k)).map f).sum +
            (ks.map (fun k' => ((l.filter (fun a => key a = k')).map f).sum)).sum := by
          simp
      _ = ((l.filter (fun a => key a = k)).map f).sum +
            ((l.filter (fun a => !(decide (key a = k)))).map f).sum := by
          rw [hmap, ih]
      _ = (l.map f).sum := ts_sum_filter_split (fun a => decide (key a = k)) f l

theorem insertDesc_perm (p : String × Nat) :
    ∀ l : List (String × Nat), (insertDesc p l).Perm (p :: l)
  | [] => List.Perm.refl _
  | q :: qs => by
    by_cases h : q.2 < p.2
    · simp [insertDesc, h]
    · simp only [insertDesc, if_neg h]
      exact ((insertDesc_perm p qs).cons q).trans (List.Perm.swap p q qs)

theorem mem_insertDesc {p x : String × Nat} {l : List (String × Nat)} :
    x ∈ insertDesc p l ↔ x = p ∨ x ∈ l := by
  rw [(insertDesc_perm p l).mem_iff]
  simp

theorem insertDesc_sorted (p : String × Nat) :
    ∀ l : List (String × Nat), l.Pairwise countGE → (insertDesc p l).Pairwise countGE
  | [], _ => by simp [insertDesc, countGE]
  | q :: qs, hs => by
    rcases List.pairwise_cons.mp hs with ⟨hq, hqs⟩
    by_cases h : q.2 < p.2
    · simp only [insertDesc, if_pos h]
      refine List.pairwise_cons.mpr ⟨?_, hs⟩
      intro r hr
      rcases List.mem_cons.mp hr with hrq | hrqs
      · exact hrq ▸ Nat.le_of_lt h
      · exact Nat.le_trans (hq r hrqs) (Nat.le_of_lt h)
    · simp only [insertDesc, if_neg h]
      refine List.pairwise_cons.mpr ⟨?_, insertDesc_sorted p qs hqs⟩
      intro r hr
      rcases mem_insertDesc.mp hr with hrp | hrqs
      · exact hrp ▸ Nat.le_of_not_lt h
      · exact hq r hrqs

/-- Stability of one insertion step: within each count value, the new
entry lands after every entry already present. -/
theorem insertDesc_filter (p : String × Nat) (c : Nat) :
    ∀ l : List (String × Nat), l.Pairwise countGE →
      (insertDesc p l).filter (fun q => q.2 = c) =
        if p.2 = c then l.filter (fun q => q.2 = c) ++ [p]
        else l.filter (fun q => q.2 = c)
  | [], _ => by
    by_cases hc : p.2 = c <;> simp [insertDesc, hc]
  | q :: qs, hs => by
    rcases List.pairwise_cons.mp hs with ⟨hq, hqs⟩
    by_cases h : q.2 < p.2
    · simp only [insertDesc, if_pos h]
      by_cases hc : p.2 = c
      · have hnone : ∀ r ∈ q :: qs, ¬ r.2 = c := by
          intro r hr e
          have hrle : r.2 ≤ q.2 := by
            rcases List.mem_cons.mp hr with hrq | hrqs
            · exact hrq ▸ Nat.le_refl _
            · exact hq r hrqs
          omega
        have hnil : (q :: qs).filter (fun q => q.2 = c) = [] :=
          List.filter_eq_nil_iff.mpr (by intro r hr; simpa using hnone r hr)
        have hqc : ¬ q.2 = c := hnone q (List.mem_cons_self q qs)
        simp [List.filter_cons, hc, hnil, hqc]
      · simp [List.filter_cons, hc]
    · simp only [insertDesc, if_neg h]
      by_cases hqc : q.2 = c <;> by_cases hc : p.2 = c <;>
        simp [List.filter_cons, hqc, hc, insertDesc_filter p c qs hqs]

/-- The auxiliary fold the stable sort performs, with its invariants. -/
theorem sortAux_props (c : Nat) :
    ∀ (l acc : List (String × Nat)), acc.Pairwise countGE →
      (l.foldl (fun a p => insertDesc p a) acc).Pairwise countGE ∧
      (l.foldl (fun a p => insertDesc p a) acc).filter (fun q => q.2 = c) =
        acc.filter (fun q => q.2 = c) ++ l.filter (fun q => q.2 = c)
  | [], acc, hs => by simp [hs]
  | x :: xs, acc, hs => by
    have hstep := sortAux_props c xs (insertDesc x acc) (insertDesc_sorted x acc hs)
    refine ⟨hstep.1, ?_⟩
    rw [List.foldl_cons]
    rw [hstep.2, insertDesc_filter x c acc hs, List.filter_cons]
    by_cases hc : x.2 = c <;> simp [hc]

theorem sortAux_perm :
    ∀ (l acc : List (String × Nat)),
      (l.foldl (fun a p => insertDesc p a) acc).Perm (acc ++ l)
  | [], acc => by simp
  | x :: xs, acc => by
    rw [List.foldl_cons]
    refine (sortAux_perm xs (insertDesc x acc)).trans ?_
    refine (((insertDesc_perm x acc).append_right xs).trans ?_)
    exact List.perm_middle.symm.trans (by simp)

theorem sortDescByCount_perm (l : List (String × Nat)) :
    (sortDescByCount l).Perm l := by
  simpa [sortDescByCount] using sortAux_perm l []

theorem sortDescByCount_sorted (l : List (String × Nat)) :
    (sortDescByCount l).Pairwise countGE :=
  (sortAux_props 0 l [] (List.Pairwise.nil)).1

theorem sortDescByCount_filter (l : List (String × Nat)) (c : Nat) :
    (sortDescByCount l).filter (fun q => q.2 = c) = l.filter (fun q => q.2 = c) := by
  have h := (sortAux_props c l [] (List.Pairwise.nil)).2
  simpa [sortDescByCount] using h

theorem loadPipeline_ww_error (ww us tw : Json) (e : PyError)
    (h : extractTrendNames ww = Except.error e) :
    loadPipeline ww us tw = Except.error e := by
  simp [loadPipeline, h, ts_bind_error]

theorem loadPipeline_us_error (ww us tw : Json) (ns : List String) (e : PyError)
    (hww : extractTrendNames ww = Except.ok ns)
    (h : extractTrendNames us = Except.error e) :
    loadPipeline ww us tw = Except.error e := by
  simp [loadPipeline, hww, h, ts_bind_ok, ts_bind_error]

theorem dashboard_no_charts (fs : SourceFiles) (e : PyError)
    (h : (load_data fs).result = Except.error e) :
    (dashboardMain fs).2 = Except.error e := by
  simp [dashboardMain, h]

/-- Either malformed trend-document shape makes the extraction raise. -/
theorem malformed_extract (doc : Json) (h : malformedTrendShape doc) :
    ∃ e : PyError, MalformedTrendDocument e ∧ extractTrendNames doc = Except.error e := by
  rcases h with h | ⟨first, rest, h, hkey⟩
  · exact ⟨.indexError, Or.inl rfl, by subst h; rfl⟩
  · refine ⟨.keyError "trends", Or.inr rfl, ?_⟩
    subst h
    simp [extractTrendNames, asList, getItem, hkey, ts_bind_ok, ts_bind_error]

/-- A corpus with no qualifying record yields an empty `retweets_data`. -/
theorem extractRows_no_qualifying (ts : List Json)
    (h : ∀ t ∈ ts, t.hasKey "retweeted_status" = false) :
    extractRows ts = Except.ok [] := by
  induction ts with
  | nil => rfl
  | cons t ts ih =>
    have ht := h t (List.mem_cons_self t ts)
    have hrec := ih (fun x hx => h x (List.mem_cons_of_mem t hx))
    simp [extractRows, tweetToRow, ht, hrec, ts_bind_ok]

/-! ### The claims -/

/-- C3: for all valid world and regional trend inputs, the common-trend
set equals the intersection of the world-trend set and the region-trend
set, and its size is at most the minimum of the two set sizes; the world
set {a,b,c} and region set {b,c,d} yield the common set {b,c} of size 2. -/
theorem c3_common_trend_intersection :
    (∀ w r : Finset String, commonTrends w r = w ∩ r ∧
        (commonTrends w r).card ≤ min w.card r.card) ∧
    commonTrends {"a", "b", "c"} {"b", "c", "d"} = {"b", "c"} ∧
    (commonTrends {"a", "b", "c"} {"b", "c", "d"}).card = 2 := by
  refine ⟨fun w r => ⟨rfl, ?_⟩, by decide, by decide⟩
  exact le_min (Finset.card_le_card Finset.inter_subset_left)
    (Finset.card_le_card Finset.inter_subset_right)

/-- C6: for every tweet corpus, the sum of Total_Retweets over the rows
of the aggregated engagement table equals the sum of the raw Retweets
over all qualifying records: aggregation neither loses nor double-counts
any record. -/
theorem c6_total_retweets_conserved (rows : List EngagementRow) :
    ((dfAggRows rows).map (·.Total_Retweets)).sum = (rows.map (·.Retweets)).sum := by
  unfold dfAggRows
  rw [List.map_map]
  have hcomp : ((·.Total_Retweets) ∘ aggRowFor rows) =
      fun k => ((rows.filter (fun r => keyOf r = k)).map (·.Retweets)).sum := rfl
  rw [hcomp]
  exact ts_sum_over_fibers keyOf (·.Retweets) _ rows (nodup_firstSeen _)
    (fun r hr => (mem_firstSeen _ _).mpr (List.mem_map_of_mem keyOf hr))

/-- C8: for every tweet corpus, the counts in the language-frequency
table sum to exactly the number of qualifying tweet records. -/
theorem c8_language_counts_total (rows : List EngagementRow) :
    ((langCounts rows).map (fun p => p.2)).sum = rows.length := by
  have hperm :
      ((langCounts rows).map (fun p => p.2)).Perm
        ((counterItems (rows.map (·.Lang))).map (fun p => p.2)) :=
    (sortDescByCount_perm _).map _
  rw [hperm.sum_eq]
  unfold counterItems
  rw [List.map_map]
  have hfib := ts_sum_over_fibers (fun s : String => s) (fun _ => (1 : ℕ))
    (firstSeen (rows.map (·.Lang))) (rows.map (·.Lang)) (nodup_firstSeen _)
    (fun a ha => (mem_firstSeen _ _).mpr ha)
  simp only [ts_sum_map_one] at hfib
  simpa [occCount, Function.comp] using hfib

/-- C7: for every tweet corpus, the language-frequency table is the table
of occurrence counts of Lang over all qualifying records (one entry per
distinct language, counting over the unaggregated rows), listed in
descending-count order with ties kept in first-encountered order; the
Lang values [en, en, es, und] yield exactly [(en,2), (es,1), (und,1)]. -/
theorem c7_language_frequency_table :
    (∀ rows : List EngagementRow,
        (langCounts rows).Perm (counterItems (rows.map (·.Lang))) ∧
        (∀ p ∈ langCounts rows, p.2 = occCount (rows.map (·.Lang)) p.1) ∧
        (langCounts rows).Pairwise (fun p q => q.2 ≤ p.2) ∧
        ∀ c : Nat, (langCounts rows).filter (fun p => p.2 = c) =
          (counterItems (rows.map (·.Lang))).filter (fun p => p.2 = c)) ∧
    mostCommon ["en", "en", "es", "und"] = [("en", 2), ("es", 1), ("und", 1)] := by
  refine ⟨fun rows => ⟨sortDescByCount_perm _, ?_, ?_, fun c => sortDescByCount_filter _ c⟩,
    by decide⟩
  · intro p hp
    have hp2 : p ∈ counterItems (rows.map (·.Lang)) :=
      (sortDescByCount_perm _).mem_iff.mp hp
    obtain ⟨l, _, rfl⟩ := List.mem_map.mp hp2
    rfl
  · exact (sortDescByCount_sorted _).imp (fun h => h)

/-- C1: for every tweet corpus, the aggregation produces, for each group
of qualifying records sharing the key (ScreenName, Text, Followers),
exactly one row whose Total_Retweets and Total_Favorites are the group
sums, with Total_Engagement their sum and Normalized_Engagement_Rate
equal to 100 * Total_Engagement / Followers; two qualifying records for
account A, text T, Followers 100 with (5,10) and (3,2) yield the single
row (8, 12, 20, 20). -/
theorem c1_groupby_aggregation (rows : List EngagementRow) (k : AggKey)
    (hk : k ∈ rows.map keyOf) :
    dfAgg rows = Except.ok (dfAggRows rows) ∧
    (∃! a : AggRow, a ∈ dfAggRows rows ∧
        a.ScreenName = k.1 ∧ a.Text = k.2.1 ∧ a.Followers = k.2.2 ∧
        a.Total_Retweets =
          ((rows.filter (fun r => keyOf r = k)).map (·.Retweets)).sum ∧
        a.Total_Favorites =
          ((rows.filter (fun r => keyOf r = k)).map (·.Favorites)).sum ∧
        a.Total_Engagement = a.Total_Retweets + a.Total_Favorites ∧
        a.Normalized_Engagement_Rate =
          100 * (a.Total_Engagement : ℚ) / (k.2.2 : ℚ)) ∧
    dfAggRows [⟨5, 10, 100, "A", "T", "en"⟩, ⟨3, 2, 100, "A", "T", "en"⟩] =
      [⟨"A", "T", 100, 8, 12, 20, 20⟩] := by
  have hne : rows ≠ [] := by
    rintro rfl
    simp at hk
  refine ⟨by simp [dfAgg, hne], ?_, ?_⟩
  · refine ⟨aggRowFor rows k,
      ⟨List.mem_map.mpr ⟨k, (mem_firstSeen _ _).mpr hk, rfl⟩,
        rfl, rfl, rfl, rfl, rfl, rfl, ?_⟩, ?_⟩
    · show ((((rows.filter (fun r => keyOf r = k)).map (·.Retweets)).sum +
          ((rows.filter (fun r => keyOf r = k)).map (·.Favorites)).sum : Int) : ℚ) /
            (k.2.2 : ℚ) * 100 =
        100 * ((((rows.filter (fun r => keyOf r = k)).map (·.Retweets)).sum +
          ((rows.filter (fun r => keyOf r = k)).map (·.Favorites)).sum : Int) : ℚ) /
            (k.2.2 : ℚ)
      ring
    · rintro b ⟨hb, h1, h2, h3, -, -, -, -⟩
      obtain ⟨k2, _, rfl⟩ := List.mem_map.mp hb
      have hkk : k2 = k := by
        obtain ⟨x1, x2, x3⟩ := k2
        obtain ⟨y1, y2, y3⟩ := k
        simp only [aggRowFor] at h1 h2 h3
        simp_all
      rw [hkk]
  · simp [dfAggRows, firstSeen, aggRowFor, keyOf, AggRow.mk.injEq]

/-- Witness for C1 at the two-record scenario of the claim. -/
theorem c1_groupby_aggregation_witness :
    (("A", "T", (100 : Int)) ∈
      ([⟨5, 10, 100, "A", "T", "en"⟩, ⟨3, 2, 100, "A", "T", "en"⟩] :
        List EngagementRow).map keyOf) ∧
    dfAgg [⟨5, 10, 100, "A", "T", "en"⟩, ⟨3, 2, 100, "A", "T", "en"⟩] =
      Except.ok (dfAggRows [⟨5, 10, 100, "A", "T", "en"⟩, ⟨3, 2, 100, "A", "T", "en"⟩]) :=
  ⟨by decide,
    (c1_groupby_aggregation
      [⟨5, 10, 100, "A", "T", "en"⟩, ⟨3, 2, 100, "A", "T", "en"⟩]
      ("A", "T", 100) (by decide)).1⟩

/-- C2: if any of the three source files is missing, loading fails with
the DataUnavailable condition (the user-facing notice is emitted, no data
products are produced, the return value is the four-None tuple) and no
charts are rendered. -/
theorem c2_missing_file_fails (fs : SourceFiles) (h : anyMissing fs) :
    DataUnavailable (load_data fs) ∧
    (dashboardMain fs).2 = Except.error (PyError.valueError "not enough values to unpack") := by
  obtain ⟨a, b, c⟩ := fs
  cases a <;> cases b <;> cases c <;>
    simp_all [anyMissing, load_data, DataUnavailable, dashboardMain, renderedCharts]

/-- Witness for C2: all three files missing. -/
theorem c2_missing_file_fails_witness :
    DataUnavailable (load_data ⟨none, none, none⟩) ∧
    (dashboardMain ⟨none, none, none⟩).2 =
      Except.error (PyError.valueError "not enough values to unpack") :=
  c2_missing_file_fails ⟨none, none, none⟩ (Or.inl rfl)

/-- C9: on a missing file `load_data` returns the four-element all-None
tuple while a successful load returns five data products, so the
failure-path shape differs from the five-name unpacking in `main`, which
raises ValueError on the four-element tuple. -/
theorem c9_failure_return_shape (fs : SourceFiles) (h : anyMissing fs) :
    (load_data fs).result = Except.ok LoadReturn.quadNone ∧
    LoadReturn.quadNone.arity = 4 ∧
    (∀ w u c agg lc, (LoadReturn.products w u c agg lc).arity = 5) ∧
    renderedCharts LoadReturn.quadNone =
      Except.error (PyError.valueError "not enough values to unpack") := by
  refine ⟨?_, rfl, fun _ _ _ _ _ => rfl, rfl⟩
  obtain ⟨a, b, c⟩ := fs
  cases a <;> cases b <;> cases c <;> simp_all [anyMissing, load_data]

/-- Witness for C9: all three files missing. -/
theorem c9_failure_return_shape_witness :
    (load_data ⟨none, none, none⟩).result = Except.ok LoadReturn.quadNone ∧
    LoadReturn.quadNone.arity = 4 ∧
    (∀ w u c agg lc, (LoadReturn.products w u c agg lc).arity = 5) ∧
    renderedCharts LoadReturn.quadNone =
      Except.error (PyError.valueError "not enough values to unpack") :=
  c9_failure_return_shape ⟨none, none, none⟩ (Or.inl rfl)

/-- C5: a trend source whose top-level sequence is empty or whose first
element lacks the trends key makes the loader fail with a
MalformedTrendDocument error; the failure is closed, no data products
are returned and no charts are rendered. -/
theorem c5_malformed_trend_fails (ww us tw : Json)
    (h : malformedTrendShape ww ∨
      ((∃ ns, extractTrendNames ww = Except.ok ns) ∧ malformedTrendShape us)) :
    ∃ e : PyError, MalformedTrendDocument e ∧
      (load_data ⟨some ww, some us, some tw⟩).result = Except.error e ∧
      (dashboardMain ⟨some ww, some us, some tw⟩).2 = Except.error e := by
  have hres : (load_data ⟨some ww, some us, some tw⟩).result = loadPipeline ww us tw := rfl
  rcases h with h | ⟨⟨ns, hok⟩, h⟩
  · obtain ⟨e, he, herr⟩ := malformed_extract ww h
    have hp : (load_data ⟨some ww, some us, some tw⟩).result = Except.error e := by
      rw [hres]
      exact loadPipeline_ww_error ww us tw e herr
    exact ⟨e, he, hp, dashboard_no_charts _ e hp⟩
  · obtain ⟨e, he, herr⟩ := malformed_extract us h
    have hp : (load_data ⟨some ww, some us, some tw⟩).result = Except.error e := by
      rw [hres]
      exact loadPipeline_us_error ww us tw ns e hok herr
    exact ⟨e, he, hp, dashboard_no_charts _ e hp⟩

/-- Witness for C5: an empty top-level trend sequence. -/
theorem c5_malformed_trend_fails_witness :
    ∃ e : PyError, MalformedTrendDocument e ∧
      (load_data ⟨some (Json.arr []), some (Json.arr []), some (Json.arr [])⟩).result =
        Except.error e ∧
      (dashboardMain ⟨some (Json.arr []), some (Json.arr []), some (Json.arr [])⟩).2 =
        Except.error e :=
  c5_malformed_trend_fails (Json.arr []) (Json.arr []) (Json.arr [])
    (Or.inl (Or.inl rfl))

/-- C10: for every corpus in which no record carries a reshare
sub-record, the aggregation step raises (KeyError on the first groupby
column, since the empty DataFrame has no columns) instead of returning
empty tables, so `load_data` only returns successfully when at least one
record qualifies. -/
theorem c10_no_qualifying_record_raises (ww us : Json) (wwNames usNames : List String)
    (ts : List Json)
    (hww : extractTrendNames ww = Except.ok wwNames)
    (hus : extractTrendNames us = Except.ok usNames)
    (hq : ∀ t ∈ ts, t.hasKey "retweeted_status" = false) :
    (load_data ⟨some ww, some us, some (Json.arr ts)⟩).result =
      Except.error (PyError.keyError "ScreenName") := by
  have hrows := extractRows_no_qualifying ts hq
  show loadPipeline ww us (Json.arr ts) = _
  simp [loadPipeline, hww, hus, asList, hrows, dfAgg, ts_bind_ok, ts_bind_error]

/-- Witness for C10: well-formed trend documents and a one-tweet corpus
whose tweet has no retweeted_status key. -/
theorem c10_no_qualifying_record_raises_witness :
    (load_data ⟨some emptyTrendDoc, some emptyTrendDoc,
        some (Json.arr [Json.obj []])⟩).result =
      Except.error (PyError.keyError "ScreenName") :=
  c10_no_qualifying_record_raises emptyTrendDoc emptyTrendDoc [] [] [Json.obj []]
    rfl rfl
    (by
      intro t ht
      rw [List.mem_singleton] at ht
      subst ht
      rfl)

/-- C4: the claim requires the zero-follower case to be excluded or
clamped, but the code has no guard: a corpus whose single qualifying
record has Followers = 0 loads successfully and its row reaches the
aggregated table, where the unguarded division
Total_Engagement / Followers * 100 is performed (IEEE-float infinity in
the source; this theorem only asserts the presence of the unexcluded
row and the silent success of the load). -/
theorem c4_zero_followers_not_guarded :
    ((dfAggRows [zeroFollowerRow]).map
        (fun a => (a.Followers, a.Total_Retweets, a.Total_Favorites, a.Total_Engagement)) =
      [(0, 5, 10, 15)]) ∧
    (load_data fsZeroFollowers).result =
      Except.ok (LoadReturn.products ∅ ∅ ∅ (dfAggRows [zeroFollowerRow]) [("en", 1)]) :=
  ⟨by decide, by rfl⟩

end TwitterDashboard
